import Mathlib

/-!
Verification development for the NextStep mock-interview server actions
(`createInterviewSession`, `generateInterviewQuestions`,
`startInterviewWithQuestions`, `generateFeedbackFromTranscript`,
`handleInterviewComplete`).

The JavaScript source is shallowly embedded: JSON values are the inductive
`JValue`; `JSON.parse` is a fuel-based recursive-descent parser `jsonParse`
(restricted to integer numeric literals and the common string escapes; no
claim under verification depends on fractional numbers or `\u` escapes);
the Prisma store is an explicit `Store` record threaded through each
operation; the Gemini text-generation collaborator is an oracle parameter
(`GenOutcome`) giving either a failure or the raw response text.
-/

namespace NextStep

/-- Characters written via code points so that brace/backtick characters never
appear literally in the file. -/
def lbraceChar : Char := Char.ofNat 123

def rbraceChar : Char := Char.ofNat 125

def backtickChar : Char := Char.ofNat 96

/-- JavaScript JSON values (numbers restricted to integers). -/
inductive JValue where
  | null : JValue
  | bool : Bool → JValue
  | num : Int → JValue
  | str : String → JValue
  | arr : List JValue → JValue
  | obj : List (String × JValue) → JValue

/-- JSON whitespace characters (also the characters JavaScript `\s` and
`String.prototype.trim` recognise that occur in model responses). -/
def isWsChar (c : Char) : Bool :=
  c = ' ' || c = '\n' || c = '\t' || c = '\r'

def skipWs : List Char → List Char
  | [] => []
  | c :: cs => if isWsChar c then skipWs cs else c :: cs

def isDigitChar (c : Char) : Bool := '0' ≤ c && c ≤ '9'

/-- JavaScript `\w`: ASCII letters, digits and underscore. -/
def isWordChar (c : Char) : Bool := c.isAlpha || isDigitChar c || c = '_'

def takeDigits : List Char → List Char × List Char
  | [] => ([], [])
  | c :: cs =>
    if isDigitChar c then
      let (ds, rest) := takeDigits cs
      (c :: ds, rest)
    else ([], c :: cs)

def digitsToNat (ds : List Char) : Nat :=
  ds.foldl (fun a c => a * 10 + (c.toNat - 48)) 0

/-- Body of a JSON string after the opening quote: returns the decoded
characters and the remainder after the closing quote. -/
def parseStringBody : Nat → List Char → Option (List Char × List Char)
  | 0, _ => none
  | _ + 1, [] => none
  | fuel + 1, c :: cs =>
    if c = '"' then some ([], cs)
    else if c = '\\' then
      match cs with
      | [] => none
      | e :: cs2 =>
        let mapped : Option Char :=
          if e = '"' then some '"'
          else if e = '\\' then some '\\'
          else if e = '/' then some '/'
          else if e = 'n' then some '\n'
          else if e = 't' then some '\t'
          else if e = 'r' then some '\r'
          else if e = 'b' then some (Char.ofNat 8)
          else if e = 'f' then some (Char.ofNat 12)
          else none
        match mapped with
        | none => none
        | some m =>
          match parseStringBody fuel cs2 with
          | some (body, rem) => some (m :: body, rem)
          | none => none
    else
      match parseStringBody fuel cs with
      | some (body, rem) => some (c :: body, rem)
      | none => none

/-- JSON integer literal: optional minus, digits, no leading zeros; a
following `.`, `e` or `E` (fractional/exponent forms) is not modelled. -/
def parseNumber (cs : List Char) : Option (Int × List Char) :=
  let (neg, cs1) :=
    match cs with
    | c :: rest => if c = '-' then (true, rest) else (false, cs)
    | [] => (false, ([] : List Char))
  match takeDigits cs1 with
  | ([], _) => none
  | (ds, rest) =>
    if ds.length > 1 && ds.headD ' ' = '0' then none
    else
      match rest with
      | r :: _ => if r = '.' || r = 'e' || r = 'E' then none else
          some (if neg then -(digitsToNat ds : Int) else (digitsToNat ds : Int), rest)
      | [] => some (if neg then -(digitsToNat ds : Int) else (digitsToNat ds : Int), [])

/-- Set a key on a JavaScript object field list: overwrite in place when the
key exists (insertion order is kept), append otherwise. -/
def setField : List (String × JValue) → String → JValue → List (String × JValue)
  | [], k, v => [(k, v)]
  | (k', v') :: rest, k, v =>
    if k' = k then (k, v) :: rest else (k', v') :: setField rest k v

mutual

/-- Recursive-descent JSON value parser with explicit fuel. -/
def parseJson : Nat → List Char → Option (JValue × List Char)
  | 0, _ => none
  | fuel + 1, cs =>
    match skipWs cs with
    | [] => none
    | c :: rest =>
      if c = lbraceChar then parseObjRest fuel rest []
      else if c = '[' then parseArrRest fuel rest []
      else if c = '"' then
        match parseStringBody (rest.length + 1) rest with
        | some (body, rem) => some (.str (String.mk body), rem)
        | none => none
      else if c = 'n' then
        match rest with
        | 'u' :: 'l' :: 'l' :: rem => some (.null, rem)
        | _ => none
      else if c = 't' then
        match rest with
        | 'r' :: 'u' :: 'e' :: rem => some (.bool true, rem)
        | _ => none
      else if c = 'f' then
        match rest with
        | 'a' :: 'l' :: 's' :: 'e' :: rem => some (.bool false, rem)
        | _ => none
      else
        match parseNumber (c :: rest) with
        | some (n, rem) => some (.num n, rem)
        | none => none

/-- Fields of a JSON object after the opening brace (accumulator holds the
fields parsed so far, in order). -/
def parseObjRest : Nat → List Char → List (String × JValue) → Option (JValue × List Char)
  | 0, _, _ => none
  | fuel + 1, cs, acc =>
    match skipWs cs with
    | [] => none
    | c :: rest =>
      if c = rbraceChar then
        if acc.isEmpty then some (.obj [], rest) else none
      else if c = '"' then
        match parseStringBody (rest.length + 1) rest with
        | none => none
        | some (keyBody, afterKey) =>
          match skipWs afterKey with
          | ':' :: afterColon =>
            match parseJson fuel afterColon with
            | none => none
            | some (v, afterVal) =>
              let acc2 := setField acc (String.mk keyBody) v
              match skipWs afterVal with
              | ',' :: afterComma => parseObjRest fuel afterComma acc2
              | d :: afterClose =>
                if d = rbraceChar then some (.obj acc2, afterClose) else none
              | [] => none
          | _ => none
      else none

/-- Elements of a JSON array after the opening bracket. -/
def parseArrRest : Nat → List Char → List JValue → Option (JValue × List Char)
  | 0, _, _ => none
  | fuel + 1, cs, acc =>
    match skipWs cs with
    | [] => none
    | ']' :: rest =>
      if acc.isEmpty then some (.arr [], rest) else none
    | cs' =>
      match parseJson fuel cs' with
      | none => none
      | some (v, afterVal) =>
        let acc2 := acc ++ [v]
        match skipWs afterVal with
        | ',' :: afterComma => parseArrRest fuel afterComma acc2
        | ']' :: afterClose => some (.arr acc2, afterClose)
        | _ => none

end

/-- `JSON.parse`: a full-input parse of the string, allowing surrounding
whitespace only. -/
def jsonParse (s : String) : Option JValue :=
  match parseJson (2 * s.data.length + 4) s.data with
  | some (v, rest) => if (skipWs rest).isEmpty then some v else none
  | none => none

/-! ### JavaScript string helpers -/

/-- `String.prototype.trim` (on the whitespace characters occurring here). -/
def jsTrimList (cs : List Char) : List Char :=
  ((cs.dropWhile isWsChar).reverse.dropWhile isWsChar).reverse

def jsTrim (s : String) : String := String.mk (jsTrimList s.data)

/-- Drop the 4 characters of `json` when they are the prefix. -/
def dropJsonTag (cs : List Char) : List Char :=
  match cs with
  | 'j' :: 's' :: 'o' :: 'n' :: rest => rest
  | _ => cs

def dropOneNewline (cs : List Char) : List Char :=
  match cs with
  | '\n' :: rest => rest
  | _ => cs

/-- Global replacement of the pattern: three backticks, an optional `json`
tag, an optional newline — with the empty string (the markdown code-fence
stripping `text.replace` both actions perform on model responses). -/
def stripFencesAux : Nat → List Char → List Char
  | 0, cs => cs
  | _ + 1, [] => []
  | fuel + 1, c :: cs =>
    if c = backtickChar then
      match cs with
      | c2 :: c3 :: rest =>
        if c2 = backtickChar && c3 = backtickChar then
          stripFencesAux fuel (dropOneNewline (dropJsonTag rest))
        else c :: stripFencesAux fuel cs
      | _ => c :: stripFencesAux fuel cs
    else c :: stripFencesAux fuel cs

def stripFences (cs : List Char) : List Char := stripFencesAux cs.length cs

def idxOfChar? (c : Char) : List Char → Option Nat
  | [] => none
  | x :: xs =>
    if x = c then some 0
    else (idxOfChar? c xs).map Nat.succ

def lastIdxOfChar? (c : Char) (cs : List Char) : Option Nat :=
  (idxOfChar? c cs.reverse).map (fun i => cs.length - 1 - i)

/-- Cleaning applied to the raw feedback model response (lines 341–348 of the
source): trim, strip code fences, trim, then — when an opening brace occurs
before a closing brace — cut to the outermost brace-delimited substring. -/
def cleanResponse (raw : String) : String :=
  let t : List Char := jsTrimList (stripFencesAux raw.data.length (jsTrimList raw.data))
  match idxOfChar? lbraceChar t, lastIdxOfChar? rbraceChar t with
  | some i, some j =>
    if j > i then String.mk ((t.drop i).take (j + 1 - i)) else String.mk t
  | _, _ => String.mk t

/-! ### The numeric-recovery regular expressions (lines 358–363) -/

def skipSpaceChars (cs : List Char) : List Char := cs.dropWhile isWsChar

def startsWithDigits (k : Nat) (cs : List Char) : Bool :=
  (cs.take k).length = k && (cs.take k).all isDigitChar

/-- After the captured digits: `\s* / \s* 100`. -/
def slash100Tail (cs : List Char) : Bool :=
  match skipSpaceChars cs with
  | '/' :: rest =>
    match skipSpaceChars rest with
    | '1' :: '0' :: '0' :: _ => true
    | _ => false
  | _ => false

/-- One attempt of `(\d{1,3})\s*\/\s*100` anchored at the given position,
with the greedy-then-backtrack choice of 3, 2 or 1 digits. -/
def slash100At (cs : List Char) : Option Nat :=
  if startsWithDigits 3 cs && slash100Tail (cs.drop 3) then some (digitsToNat (cs.take 3))
  else if startsWithDigits 2 cs && slash100Tail (cs.drop 2) then some (digitsToNat (cs.take 2))
  else if startsWithDigits 1 cs && slash100Tail (cs.drop 1) then some (digitsToNat (cs.take 1))
  else none

/-- First match of `(\d{1,3})\s*\/\s*100`, scanning left to right. -/
def findSlash100 : List Char → Option Nat
  | [] => none
  | c :: cs =>
    match slash100At (c :: cs) with
    | some v => some v
    | none => findSlash100 cs

/-- First match of `(\b\d{1,3}\b)`: a maximal run of one to three digits not
adjacent to any word character. The boolean argument records whether the
previous character was a word character (for the leading `\b`). -/
def findBareNumAux : Bool → List Char → Option Nat
  | _, [] => none
  | prevWord, c :: cs =>
    if !prevWord && isDigitChar c then
      let run := (c :: cs).takeWhile isDigitChar
      let rest := (c :: cs).dropWhile isDigitChar
      if run.length ≤ 3 && (match rest with | [] => true | r :: _ => !isWordChar r) then
        some (digitsToNat run)
      else findBareNumAux true cs
    else findBareNumAux (isWordChar c) cs

def findBareNum (cs : List Char) : Option Nat := findBareNumAux false cs

/-- `totalGuess` of the parse-failure repair: the `NN/100` pattern first,
then a bare 1–3 digit number. -/
def recoverTotalGuess (cs : List Char) : Option Nat :=
  match findSlash100 cs with
  | some v => some v
  | none => findBareNum cs

/-! ### JavaScript value semantics on `JValue` -/

/-- Property read `v[key]` (`undefined` is `none`); object field lists are
duplicate-free by construction. Reads on primitives go through the boxed
object wrapper and give `undefined`; a read on JavaScript `null` instead
throws a TypeError, so `jGet` is only applied where the value cannot be
null — parsed documents in the object branch, `jSet` results, the concrete
fallback documents, and elements already matched by `jNameIs` (hence
objects). The one sink reachable by null values, the category `find`
callback of source lines 398–400, is modelled by the throwing `findCatE`. -/
def jGet (v : JValue) (key : String) : Option JValue :=
  match v with
  | .obj fs => (fs.find? (fun f => f.1 = key)).map (·.2)
  | _ => none

/-- Property assignment `v[key] = x` on an object (assignment targets in the
source are always objects by the time it runs; see `finalizeFeedback`). -/
def jSet (v : JValue) (key : String) (x : JValue) : JValue :=
  match v with
  | .obj fs => .obj (setField fs key x)
  | other => other

/-- JavaScript truthiness of a defined value. -/
def jTruthyV : JValue → Bool
  | .null => false
  | .bool b => b
  | .num n => n != 0
  | .str s => s != ""
  | .arr _ => true
  | .obj _ => true

def jTruthy : Option JValue → Bool
  | none => false
  | some v => jTruthyV v

/-- `Number(string)` on the integer subset: empty/whitespace is `0`; an
optionally signed digit string is its value; anything else is `NaN`
(`none`). Fractional forms are not modelled (no claim reaches them). -/
def strToIntNumber (s : String) : Option Int :=
  let t := jsTrimList s.data
  if t.isEmpty then some 0
  else
    let (neg, t1) :=
      match t with
      | c :: r => if c = '-' then (true, r) else if c = '+' then (false, t.tail) else (false, t)
      | [] => (false, t)
    match takeDigits t1 with
    | ([], _) => none
    | (ds, rest) =>
      if rest.isEmpty then
        some (if neg then -(digitsToNat ds : Int) else (digitsToNat ds : Int))
      else none

/-- `Math.round(x)` under `Number` coercion, on the integer subset; `none`
is `NaN`. (`Number` of an array is approximated as `NaN`; no claim involves
arrays in numeric position.) -/
def jsRound : Option JValue → Option Int
  | none => none
  | some .null => some 0
  | some (.bool true) => some 1
  | some (.bool false) => some 0
  | some (.num n) => some n
  | some (.str s) => strToIntNumber s
  | some (.arr _) => none
  | some (.obj _) => none

/-- `x || d` for a number-or-NaN left operand: `NaN` and `0` are falsy. -/
def jsOrInt (x : Option Int) (d : Int) : Int :=
  match x with
  | some n => if n = 0 then d else n
  | none => d

/-- `Math.round(x) || d` as used on lines 397–400 of the source. -/
def jsRoundOr (v : Option JValue) (d : Int) : Int := jsOrInt (jsRound v) d

/-- `s || d` for strings (empty string is falsy). -/
def jsOrStr (s d : String) : String := if s = "" then d else s

/-- `x || d` on a possibly-undefined value. -/
def jsOrJV (v : Option JValue) (d : JValue) : JValue :=
  match v with
  | some x => if jTruthyV x then x else d
  | none => d

/-- `c.name === name` (strict equality against a string literal). -/
def jNameIs (name : String) (c : JValue) : Bool :=
  match jGet c "name" with
  | some (.str s) => s = name
  | _ => false

/-- `cats.find(c => c.name === name)`. -/
def findCat (cats : List JValue) (name : String) : Option JValue :=
  cats.find? (jNameIs name)

/-- `cats.find(c => c.name === name)?.score`. -/
def catScoreOf (cats : List JValue) (name : String) : Option JValue :=
  (findCat cats name).bind (fun c => jGet c "score")

/-- `cats.find(c => c.name === name)?.score ?? d`, as used on the concrete
fallback documents (whose scores are numbers and which contain no null
entries, so the non-throwing `catScoreOf` is faithful there). -/
def scoreNNOr (cats : List JValue) (name : String) (d : Int) : Int :=
  match catScoreOf cats name with
  | some (.num n) => n
  | _ => d

/-- `cats.find(c => c.name === name)` on a parsed document, where entries can
be null: `Array.prototype.find` invokes the callback left to right and stops
at the first match; the callback reads `c.name`, which throws a TypeError
when the entry is null (all other JSON values are objects or boxed
primitives, whose reads give `undefined`). The thrown case is `.error ()`. -/
def findCatE : List JValue → String → Except Unit (Option JValue)
  | [], _ => .ok none
  | .null :: _, _ => .error ()
  | c :: cs, name => if jNameIs name c then .ok (some c) else findCatE cs name

/-- `cats.find(c => c.name === name)?.score` under the throwing find. -/
def catScoreOfE (cats : List JValue) (name : String) : Except Unit (Option JValue) :=
  match findCatE cats name with
  | .error _ => .error ()
  | .ok c => .ok (c.bind (fun x => jGet x "score"))

/-- `s.substring(0, n)`. -/
def takeChars (s : String) (n : Nat) : String := String.mk (s.data.take n)

/-- The apostrophe character, used in a few literal message strings. -/
def apos : String := String.mk [Char.ofNat 39]

/-- `x || d` for an optional string input field. -/
def jsOrStrOpt (x : Option String) (d : String) : String :=
  match x with
  | some s => if s = "" then d else s
  | none => d

/-- `x || y` for two optional string fields (as in
`sessionData.industry || user.industry`). -/
def jsOrOpt (x y : Option String) : Option String :=
  match x with
  | some s => if s = "" then y else some s
  | none => y

/-- `x || d` for an optional integer input field (`0` is falsy). -/
def jsOrIntOpt (x : Option Int) (d : Int) : Int :=
  match x with
  | some n => if n = 0 then d else n
  | none => d

/-! ### Data model -/

structure User where
  id : Nat
  clerkUserId : String
  industry : Option String

inductive SessionStatus where
  | SCHEDULED
  | IN_PROGRESS
  | COMPLETED
  | FAILED
  | CANCELLED
deriving DecidableEq

structure Session where
  id : Nat
  userId : Nat
  sessionType : String
  industry : Option String
  role : String
  difficulty : String
  duration : Int
  status : SessionStatus
  questions : List JValue
  overallScore : Option Int
  technicalScore : Option Int
  communicationScore : Option Int
  confidenceScore : Option Int
  strengths : Option (List JValue)
  weaknesses : Option (List JValue)
  detailedFeedback : Option JValue
  startedAt : Option Nat
  endedAt : Option Nat

structure CallAnalytics where
  userId : Nat
  sessionId : Nat
  transcript : String
  messagesCount : Option Nat
  rawModelOutput : Option String
  modelError : Bool
  startedAt : Option Nat
  endedAt : Option Nat

/-- The persistent store (the Prisma database): user directory, interview
sessions, call analytics (one per session id). -/
structure Store where
  users : List User
  sessions : List Session
  analytics : List CallAnalytics

def findUserByClerk (st : Store) (cid : String) : Option User :=
  st.users.find? (fun u => u.clerkUserId = cid)

def findSession (st : Store) (sid : Nat) : Option Session :=
  st.sessions.find? (fun s => s.id = sid)

def findSessionOwned (st : Store) (sid uid : Nat) : Option Session :=
  st.sessions.find? (fun s => s.id = sid && s.userId = uid)

/-- `db.interviewSession.update({where: {id}, data: f})`. On an id that is
absent this is a no-op (Prisma would throw; every theorem that relies on an
update supplies the session's existence). -/
def updateSession (st : Store) (sid : Nat) (f : Session → Session) : Store :=
  { st with sessions := st.sessions.map (fun s => if s.id = sid then f s else s) }

def findAnalytics (st : Store) (sid : Nat) : Option CallAnalytics :=
  st.analytics.find? (fun a => a.sessionId = sid)

/-- `db.callAnalytics.upsert({where: {sessionId}, update, create})`. -/
def upsertAnalyticsWith (st : Store) (sid : Nat) (upd : CallAnalytics → CallAnalytics)
    (created : CallAnalytics) : Store :=
  if (findAnalytics st sid).isSome then
    { st with analytics := st.analytics.map (fun a => if a.sessionId = sid then upd a else a) }
  else
    { st with analytics := st.analytics ++ [created] }

/-! ### Messages and transcript normalization (lines 204–219) -/

/-- A transcript message as delivered by the client: a plain string, a
structured object (any subset of the probed fields), or a null entry. -/
inductive Message where
  | plain (s : String)
  | structured (role : Option String) (ty : Option String) (content : Option String)
      (text : Option String) (transcriptField : Option String)
  | nullish

/-- The filter `m && (m.content || m.text || m.transcript || typeof m === "string")`. -/
def msgKeep : Message → Bool
  | .nullish => false
  | .plain s => s != ""
  | .structured _ _ content text transcriptField =>
    jsOrStrOpt content "" != "" || jsOrStrOpt text "" != "" || jsOrStrOpt transcriptField "" != ""

/-- The per-message renderer of lines 208–213. -/
def msgRender : Message → String
  | .plain s => "User: " ++ s
  | .structured role ty content text transcriptField =>
    let contentS := jsOrStrOpt content (jsOrStrOpt text (jsOrStrOpt transcriptField ""))
    let roleS :=
      jsOrStrOpt role (if ty = some "transcript" then "User" else jsOrStrOpt role "System")
    roleS ++ ": " ++ contentS
  | .nullish => ": "

/-- `formattedTranscript`: prefer the message log, else the raw transcript,
else the empty string. -/
def normalizeTranscript (messages : List Message) (transcript : String) : String :=
  if !messages.isEmpty then
    String.intercalate "\n" ((messages.filter msgKeep).map msgRender)
  else if transcript != "" then transcript
  else ""

/-! ### The three concrete fallback feedback documents -/

/-- A `categoryScores` entry object literal. -/
def catObj (name : String) (score : JValue) (comment : String) : JValue :=
  .obj [("name", .str name), ("score", score), ("comment", .str comment)]

/-- `fallbackFeedback` of the empty-transcript short circuit (lines 236–248). -/
def noTranscriptDoc : JValue :=
  .obj [("totalScore", .num 50),
        ("categoryScores", .arr
          [catObj "Communication Skills" (.num 50) "No transcript provided",
           catObj "Technical Knowledge" (.num 50) "No transcript provided",
           catObj "Problem Solving" (.num 50) "No transcript provided",
           catObj "Cultural Fit" (.num 50) "No transcript provided",
           catObj "Confidence and Clarity" (.num 50) "No transcript provided"]),
        ("strengths", .arr []),
        ("areasForImprovement", .arr [.str "Transcript not available"]),
        ("finalAssessment", .str ("No transcript was provided for analysis. Please provide the interview transcript to assess the candidate" ++ apos ++ "s performance."))]

/-- `fallback` of the model-call-failure path (lines 310–322). -/
def modelErrorDoc : JValue :=
  .obj [("totalScore", .num 60),
        ("categoryScores", .arr
          [catObj "Communication Skills" (.num 60) "Could not generate detailed feedback due to model error",
           catObj "Technical Knowledge" (.num 60) "Could not generate detailed feedback due to model error",
           catObj "Problem Solving" (.num 60) "Could not generate detailed feedback due to model error",
           catObj "Cultural Fit" (.num 60) "Could not generate detailed feedback due to model error",
           catObj "Confidence and Clarity" (.num 60) "Could not generate detailed feedback due to model error"]),
        ("strengths", .arr []),
        ("areasForImprovement", .arr [.str "Feedback generation failed"]),
        ("finalAssessment", .str "Feedback generation encountered an error. Please retry.")]

/-- The document synthesized when the cleaned response fails `JSON.parse`
(lines 357–378): the recovered total (a natural number of at most three
digits, so already at least 0; `Math.min` caps it at 100) or the default 75,
uniform category scores of 75, and a 1000-character excerpt of the cleaned
text as `finalAssessment`. -/
def synthFallbackDoc (cleaned : String) : JValue :=
  .obj [("totalScore", .num
          (match recoverTotalGuess cleaned.data with
           | some v => Int.ofNat (min v 100)
           | none => 75)),
        ("categoryScores", .arr
          [catObj "Communication Skills" (.num 75) "Auto-generated fallback",
           catObj "Technical Knowledge" (.num 75) "Auto-generated fallback",
           catObj "Problem Solving" (.num 75) "Auto-generated fallback",
           catObj "Cultural Fit" (.num 75) "Auto-generated fallback",
           catObj "Confidence and Clarity" (.num 75) "Auto-generated fallback"]),
        ("strengths", .arr []),
        ("areasForImprovement", .arr [.str "Could not parse model JSON; using fallback values"]),
        ("finalAssessment", .str (takeChars cleaned 1000))]

/-- `doc.categoryScores` of a concrete fallback document. -/
def jCats (doc : JValue) : List JValue :=
  match jGet doc "categoryScores" with
  | some (.arr xs) => xs
  | _ => []

/-- `doc.strengths` / `doc.areasForImprovement` as a list. -/
def jArrOrNil (v : Option JValue) : List JValue :=
  match v with
  | some (.arr xs) => xs
  | _ => []

/-! ### Structural normalization and the session update data (lines 381–406) -/

structure UpdateData where
  overallScore : Int
  technicalScore : Int
  communicationScore : Int
  confidenceScore : Int
  strengths : List JValue
  weaknesses : List JValue
  detailedFeedback : JValue

/-- Line 382: `if (!feedback.totalScore) feedback.totalScore = 75` — the
value `feedback.totalScore` holds afterwards. -/
def ensureTotal (fb : JValue) : JValue :=
  match jGet fb "totalScore" with
  | some v => if jTruthyV v then v else .num 75
  | none => .num 75

/-- Lines 381–406: force `totalScore` truthy (default 75), force
`categoryScores` to a non-empty array (synthesized from `totalScore` when
missing or empty), force `strengths` and `areasForImprovement` to arrays,
then compute the fields written to the session row. The update-data object
literal evaluates its fields in source order: `overallScore` first (it
cannot throw), then the three category `find` calls of lines 398–400 — the
first of those to scan a null entry throws a TypeError, modelled as
`.error ()`, which the caller routes to the outer catch. Returns the
mutated feedback object together with the update data or the throw. -/
def finalizeFeedback (fb : JValue) (cleaned : String) : JValue × Except Unit UpdateData :=
  let ts : JValue := ensureTotal fb
  let fb1 := jSet fb "totalScore" ts
  let cats : List JValue :=
    match jGet fb1 "categoryScores" with
    | some (.arr (c :: cs)) => c :: cs
    | _ =>
      [catObj "Communication Skills" ts "Auto",
       catObj "Technical Knowledge" ts "Auto",
       catObj "Problem Solving" ts "Auto",
       catObj "Cultural Fit" ts "Auto",
       catObj "Confidence and Clarity" ts "Auto"]
  let fb2 := jSet fb1 "categoryScores" (.arr cats)
  let strengths := jArrOrNil (jGet fb2 "strengths")
  let fb3 := jSet fb2 "strengths" (.arr strengths)
  let areas := jArrOrNil (jGet fb3 "areasForImprovement")
  let fb4 := jSet fb3 "areasForImprovement" (.arr areas)
  let upd : Except Unit UpdateData :=
    match catScoreOfE cats "Technical Knowledge" with
    | .error _ => .error ()
    | .ok vt =>
      match catScoreOfE cats "Communication Skills" with
      | .error _ => .error ()
      | .ok vk =>
        match catScoreOfE cats "Confidence and Clarity" with
        | .error _ => .error ()
        | .ok vf =>
          .ok { overallScore := jsRoundOr (some ts) 75
                technicalScore := jsRoundOr vt 50
                communicationScore := jsRoundOr vk 50
                confidenceScore := jsRoundOr vf 50
                strengths := strengths
                weaknesses := areas
                detailedFeedback :=
                  jsOrJV (jGet fb4 "finalAssessment")
                    (.str (jsOrStr (takeChars cleaned 200) "Feedback generated")) }
  (fb4, upd)

/-! ### The session writes of the feedback deriver and lifecycle manager -/

/-- Main-path write (lines 396–412). -/
def applyFeedbackUpdate (upd : UpdateData) (now : Nat) (s : Session) : Session :=
  { s with overallScore := some upd.overallScore,
           technicalScore := some upd.technicalScore,
           communicationScore := some upd.communicationScore,
           confidenceScore := some upd.confidenceScore,
           strengths := some upd.strengths,
           weaknesses := some upd.weaknesses,
           detailedFeedback := some upd.detailedFeedback,
           status := .COMPLETED,
           endedAt := some now }

/-- Empty-transcript write (lines 251–264), reading its values off the
concrete `noTranscriptDoc` exactly as the source reads `fallbackFeedback`. -/
def applyNoTranscriptUpdate (now : Nat) (s : Session) : Session :=
  { s with overallScore := some (jsRoundOr (jGet noTranscriptDoc "totalScore") 50),
           technicalScore := some (scoreNNOr (jCats noTranscriptDoc) "Technical Knowledge" 50),
           communicationScore := some (scoreNNOr (jCats noTranscriptDoc) "Communication Skills" 50),
           confidenceScore := some (scoreNNOr (jCats noTranscriptDoc) "Confidence and Clarity" 50),
           strengths := some (jArrOrNil (jGet noTranscriptDoc "strengths")),
           weaknesses := some (jArrOrNil (jGet noTranscriptDoc "areasForImprovement")),
           detailedFeedback := jGet noTranscriptDoc "finalAssessment",
           status := .COMPLETED,
           endedAt := some now }

/-- Model-error write (lines 323–336). -/
def applyModelErrorUpdate (now : Nat) (s : Session) : Session :=
  { s with overallScore := some (jsRoundOr (jGet modelErrorDoc "totalScore") 60),
           technicalScore := some (scoreNNOr (jCats modelErrorDoc) "Technical Knowledge" 60),
           communicationScore := some (scoreNNOr (jCats modelErrorDoc) "Communication Skills" 60),
           confidenceScore := some (scoreNNOr (jCats modelErrorDoc) "Confidence and Clarity" 60),
           strengths := some (jArrOrNil (jGet modelErrorDoc "strengths")),
           weaknesses := some (jArrOrNil (jGet modelErrorDoc "areasForImprovement")),
           detailedFeedback := jGet modelErrorDoc "finalAssessment",
           status := .COMPLETED,
           endedAt := some now }

/-- Write of the fatal-error recovery of the feedback deriver (lines 433–443). -/
def applyFatalUpdate (now : Nat) (s : Session) : Session :=
  { s with status := .COMPLETED,
           endedAt := some now,
           detailedFeedback := some (.str "Interview completed. Feedback generation encountered an issue."),
           overallScore := some 50,
           strengths := some [],
           weaknesses := some [.str "Feedback generation failed"] }

/-- Write of the feedback-failure/timeout recovery inside
`handleInterviewComplete` (lines 525–533). -/
def applyTimeoutUpdate (now : Nat) (s : Session) : Session :=
  { s with status := .COMPLETED,
           endedAt := some now,
           detailedFeedback := some (.str "Interview completed successfully. Feedback generation encountered an issue."),
           overallScore := some 50 }

/-! ### Analytics writes -/

/-- Lines 224–229: raw-transcript upsert of the feedback deriver. -/
def upsertAnalyticsTranscript (st : Store) (uid sid : Nat) (tr : String) (now : Nat) : Store :=
  upsertAnalyticsWith st sid
    (fun a => { a with transcript := tr, endedAt := some now })
    { userId := uid, sessionId := sid, transcript := tr, messagesCount := none,
      rawModelOutput := none, modelError := false, startedAt := none, endedAt := some now }

/-- Lines 303–308: record of the model error in the analytics metadata
(`updateMany`, touching existing rows only). -/
def recordModelError (st : Store) (sid : Nat) : Store :=
  { st with analytics :=
      st.analytics.map (fun a => if a.sessionId = sid then { a with modelError := true } else a) }

/-- Lines 415–425: raw model output attached after the main-path write. -/
def upsertAnalyticsRawOutput (st : Store) (uid sid : Nat) (tr raw : String) (now : Nat) : Store :=
  upsertAnalyticsWith st sid
    (fun a => { a with rawModelOutput := some (takeChars raw 5000) })
    { userId := uid, sessionId := sid, transcript := tr, messagesCount := none,
      rawModelOutput := some (takeChars raw 5000), modelError := false,
      startedAt := none, endedAt := some now }

/-- Lines 474–505: transcript/metadata upsert of `handleInterviewComplete`. -/
def upsertAnalyticsComplete (st : Store) (uid sid : Nat) (tr : String) (msgCount : Nat)
    (startedAt : Option Nat) (now : Nat) : Store :=
  upsertAnalyticsWith st sid
    (fun a => { a with transcript := tr, endedAt := some now, messagesCount := some msgCount })
    { userId := uid, sessionId := sid, transcript := tr, messagesCount := some msgCount,
      rawModelOutput := none, modelError := false, startedAt := startedAt, endedAt := some now }

/-! ### The exposed operations -/

/-- Outcome of one call to the text-generation collaborator: a thrown
failure, or the raw response text. -/
inductive GenOutcome where
  | failure
  | success (text : String)

structure SessionData where
  role : String
  difficulty : Option String := none
  techStack : Option String := none
  sessionType : Option String := none
  questionCount : Option Int := none
  industry : Option String := none
  duration : Option Int := none

/-- The fixed fallback question list of 8 items, with the role interpolated
into the second question (identical at both of its occurrences in the
source, lines 36–45 and 104–113). -/
def fallbackQuestions (role : String) : List JValue :=
  [.str "Tell me about yourself and your background.",
   .str ("What interests you most about working as a " ++ role ++ "?"),
   .str "What are your greatest strengths?",
   .str "Describe a challenging project you worked on.",
   .str "How do you handle working under pressure?",
   .str "Where do you see yourself in 5 years?",
   .str "Why should we hire you for this position?",
   .str "Do you have any questions for us?"]

/-- `generateInterviewQuestions` (lines 77–115): auth and user checks, then
the collaborator call; its response is fence-stripped, trimmed and
`JSON.parse`d and returned as-is (any JSON value); a collaborator failure or
a parse failure lands in the catch and returns the fallback list. The prompt
construction has no observable effect and is not modelled. -/
def generateInterviewQuestions (st : Store) (authId : Option String) (d : SessionData)
    (model : GenOutcome) : Except String JValue :=
  match authId with
  | none => .error "Unauthorized"
  | some cid =>
    match findUserByClerk st cid with
    | none => .error "User not found"
    | some _user =>
      match model with
      | .failure => .ok (.arr (fallbackQuestions d.role))
      | .success text =>
        let cleanedText := jsTrim (String.mk (stripFences text.data))
        match jsonParse cleanedText with
        | none => .ok (.arr (fallbackQuestions d.role))
        | some v => .ok v

/-- `createInterviewSession` (lines 11–74): auth and user checks; the
question generation (whose only throwing paths are the auth checks, already
passed, so the catch with its own fallback list is dead but embedded);
`Array.isArray` coercion of the result to a list (a non-array JSON value
becomes the empty list); creation of the SCHEDULED session row. The opaque
`prepwise-` correlation id returned alongside is not modelled. -/
def createInterviewSession (st : Store) (authId : Option String) (d : SessionData)
    (model : GenOutcome) (newId : Nat) : Except String (Session × Store) :=
  match authId with
  | none => .error "Unauthorized"
  | some cid =>
    match findUserByClerk st cid with
    | none => .error "User not found"
    | some user =>
      let questionsJson : List JValue :=
        match generateInterviewQuestions st authId d model with
        | .ok qs => match qs with | .arr xs => xs | _ => []
        | .error _ => fallbackQuestions d.role
      let session : Session :=
        { id := newId, userId := user.id,
          sessionType := jsOrStrOpt d.sessionType "mock",
          industry := jsOrOpt d.industry user.industry,
          role := d.role,
          difficulty := jsOrStrOpt d.difficulty "intermediate",
          duration := jsOrIntOpt d.duration 30,
          status := .SCHEDULED,
          questions := questionsJson,
          overallScore := none, technicalScore := none, communicationScore := none,
          confidenceScore := none, strengths := none, weaknesses := none,
          detailedFeedback := none, startedAt := none, endedAt := none }
      .ok (session, { st with sessions := st.sessions ++ [session] })

/-- Line 135: `typeof q === "string" ? q : (q.question || q.text || "")`
(a truthy non-string field value would be coerced by the template literal;
no claim inspects that case, it is rendered as the empty string here; a
null question entry would throw at `q.question` inside the try of `start`,
which the `tryFails` oracle of `startInterviewWithQuestions` covers). -/
def questionText (q : JValue) : String :=
  match q with
  | .str s => s
  | _ =>
    match jsOrJV (jGet q "question") (jsOrJV (jGet q "text") (.str "")) with
    | .str s => s
    | _ => ""

structure AssistantConfig where
  name : String
  firstMessage : String
  transcriberProvider : String
  voiceId : String
  modelProvider : String
  systemContent : String

/-- The VAPI assistant configuration of lines 140–171 (provider constants
and the two role-dependent texts). -/
def buildAssistantConfig (session : Session) (questions : List String) : AssistantConfig :=
  let formattedQuestions := String.intercalate "\n" (questions.map (fun q => "- " ++ q))
  { name := "AI Interviewer",
    firstMessage := "Hello! Thank you for taking the time to speak with me today. I" ++ apos ++ "m excited to learn more about you and your experience for the " ++ session.role ++ " position.",
    transcriberProvider := "deepgram",
    voiceId := "sarah",
    modelProvider := "openai",
    systemContent := "You are a professional job interviewer conducting a real-time voice interview with a candidate.\nInterview Context:\n- Position: " ++ session.role ++ "\n- Level: " ++ jsOrStr session.difficulty "unspecified" ++ "\n\nInterview Guidelines:\nFocus on the structured question flow:\n" ++ formattedQuestions ++ "\nBe professional, yet warm. Keep answers brief, ask follow-ups when needed." }

/-- `startInterviewWithQuestions` (lines 118–186): auth, user and
owner-scoped session lookup; then the try block (config construction and
the IN_PROGRESS update) — `tryFails` is the oracle for any throw inside it,
whose catch writes status FAILED and rethrows. Neither branch inspects the
session's current status. -/
def startInterviewWithQuestions (st : Store) (authId : Option String) (sessionId : Nat)
    (tryFails : Bool) (now : Nat) : Except String (Session × AssistantConfig × List String) × Store :=
  match authId with
  | none => (.error "Unauthorized", st)
  | some cid =>
    match findUserByClerk st cid with
    | none => (.error "User not found", st)
    | some user =>
      match findSessionOwned st sessionId user.id with
      | none => (.error "Interview session not found", st)
      | some session =>
        if tryFails then
          (.error "start failed", updateSession st sessionId (fun s => { s with status := .FAILED }))
        else
          let questions := session.questions.map questionText
          let config := buildAssistantConfig session questions
          let updated := { session with status := SessionStatus.IN_PROGRESS, startedAt := some now }
          (.ok (updated, config, questions),
           updateSession st sessionId (fun s => { s with status := .IN_PROGRESS, startedAt := some now }))

/-- Oracle for one run of the feedback deriver: `fatal` is an unexpected
internal throw (landing in the outer catch of lines 429–447); `normal m`
runs the body with collaborator outcome `m`. -/
inductive FeedbackRun where
  | fatal
  | normal (model : GenOutcome)

/-- Oracle for the `Promise.race` of lines 512–517: either the derivation
settles (`ran`), or the 30s timeout wins and the derivation is abandoned
before any of its writes (`timedOut`). -/
inductive FeedbackStep where
  | timedOut
  | ran (run : FeedbackRun)

/-- `generateFeedbackFromTranscript` (lines 190–449). The function performs
no auth check. A parsed document that is not a JSON object makes the
strict-mode property assignments of lines 382–393 throw, landing in the
outer catch (a parsed top-level array would accept the assignments; no claim
involves one, and it is grouped with the primitives here). A parsed object
whose `categoryScores` holds a null entry scanned by one of the three
`find` calls of lines 398–400 likewise throws (TypeError on `null.name`,
modelled by `findCatE`) and lands in the outer catch before the session
update runs. -/
def generateFeedbackFromTranscript (st : Store) (sessionId : Nat) (transcript : String)
    (messages : List Message) (run : FeedbackRun) (now : Nat) : Option JValue × Store :=
  match run with
  | .fatal => (none, updateSession st sessionId (applyFatalUpdate now))
  | .normal model =>
    match findSession st sessionId with
    | none => (none, st)
    | some session =>
      let formattedTranscript := normalizeTranscript messages transcript
      let st1 := upsertAnalyticsTranscript st session.userId sessionId
        (jsOrStr formattedTranscript "No transcript") now
      if (jsTrim formattedTranscript).data.length < 10 then
        (some noTranscriptDoc, updateSession st1 sessionId (applyNoTranscriptUpdate now))
      else
        match model with
        | .failure =>
          let st2 := recordModelError st1 sessionId
          (some modelErrorDoc, updateSession st2 sessionId (applyModelErrorUpdate now))
        | .success raw =>
          let cleaned := cleanResponse raw
          let fb0 : JValue :=
            match jsonParse cleaned with
            | some v => v
            | none => synthFallbackDoc cleaned
          match fb0 with
          | .obj fs =>
            match (finalizeFeedback (.obj fs) cleaned).2 with
            | .error _ =>
              -- a null categoryScores entry made a find callback throw
              -- (TypeError at line 398-400) before the session update ran;
              -- the outer catch writes the fatal recovery and returns null
              (none, updateSession st1 sessionId (applyFatalUpdate now))
            | .ok upd =>
              let st2 := updateSession st1 sessionId (applyFeedbackUpdate upd now)
              let st3 := upsertAnalyticsRawOutput st2 session.userId sessionId formattedTranscript raw now
              (some (finalizeFeedback (.obj fs) cleaned).1, st3)
          | _ => (none, updateSession st1 sessionId (applyFatalUpdate now))

/-- `handleInterviewComplete` (lines 452–574). The source performs no
`auth()` call: `authId` records the ambient identity available to the server
action and is read nowhere. The analytics upsert failure branch only logs,
and the store model's upsert always succeeds. When the session id is absent
the final catch re-raises after a FAILED update that itself cannot match a
row (a no-op here). -/
def handleInterviewComplete (st : Store) (authId : Option String) (sessionId : Nat)
    (transcript : String) (messages : List Message) (step : FeedbackStep) (now : Nat) :
    Except String (Option Session × Option JValue) × Store :=
  match findSession st sessionId with
  | none => (.error "Session not found", st)
  | some session =>
    let st1 := upsertAnalyticsComplete st session.userId sessionId
      (jsOrStr transcript "No transcript available") messages.length session.startedAt now
    match step with
    | .ran run =>
      let (feedback, st2) := generateFeedbackFromTranscript st1 sessionId transcript messages run now
      (.ok (findSession st2 sessionId, feedback), st2)
    | .timedOut =>
      let st2 := updateSession st1 sessionId (applyTimeoutUpdate now)
      (.ok (findSession st2 sessionId, none), st2)

/-! ## Store lemmas -/

theorem find_map_update (l : List Session) (sid : Nat) (f : Session → Session)
    (hf : ∀ s, (f s).id = s.id) :
    (l.map (fun s => if s.id = sid then f s else s)).find? (fun s => s.id = sid)
      = (l.find? (fun s => s.id = sid)).map f := by
  induction l with
  | nil => rfl
  | cons a l ih =>
    by_cases h : a.id = sid
    · simp [List.find?, h, hf a]
    · simp [List.find?, h, ih]

theorem findSession_updateSession (st : Store) (sid : Nat) (f : Session → Session)
    (hf : ∀ s, (f s).id = s.id) :
    findSession (updateSession st sid f) sid = (findSession st sid).map f := by
  unfold findSession updateSession
  exact find_map_update st.sessions sid f hf

theorem sessions_upsertAnalyticsWith (st : Store) (sid : Nat) (u : CallAnalytics → CallAnalytics)
    (c : CallAnalytics) : (upsertAnalyticsWith st sid u c).sessions = st.sessions := by
  unfold upsertAnalyticsWith
  split <;> rfl

theorem findSession_upsertAnalyticsTranscript (st : Store) (uid sid : Nat) (tr : String)
    (now : Nat) (sid' : Nat) :
    findSession (upsertAnalyticsTranscript st uid sid tr now) sid' = findSession st sid' := by
  unfold findSession upsertAnalyticsTranscript
  rw [sessions_upsertAnalyticsWith]

theorem findSession_upsertAnalyticsRawOutput (st : Store) (uid sid : Nat) (tr raw : String)
    (now : Nat) (sid' : Nat) :
    findSession (upsertAnalyticsRawOutput st uid sid tr raw now) sid' = findSession st sid' := by
  unfold findSession upsertAnalyticsRawOutput
  rw [sessions_upsertAnalyticsWith]

theorem findSession_upsertAnalyticsComplete (st : Store) (uid sid : Nat) (tr : String)
    (mc : Nat) (sa : Option Nat) (now : Nat) (sid' : Nat) :
    findSession (upsertAnalyticsComplete st uid sid tr mc sa now) sid' = findSession st sid' := by
  unfold findSession upsertAnalyticsComplete
  rw [sessions_upsertAnalyticsWith]

theorem findSession_recordModelError (st : Store) (sid sid' : Nat) :
    findSession (recordModelError st sid) sid' = findSession st sid' := rfl

/-! ## Field lemmas about `jSet` and `jGet` -/

theorem find_setField (fs : List (String × JValue)) (k : String) (x : JValue) :
    (setField fs k x).find? (fun f => f.1 = k) = some (k, x) := by
  induction fs with
  | nil => simp [setField, List.find?]
  | cons a fs ih =>
    by_cases h : a.1 = k
    · simp [setField, h, List.find?]
    · simp [setField, h, List.find?, ih]

theorem find_setField_other (fs : List (String × JValue)) (k k' : String) (x : JValue)
    (h : k' ≠ k) :
    (setField fs k x).find? (fun f => f.1 = k') = fs.find? (fun f => f.1 = k') := by
  induction fs with
  | nil => simp [setField, List.find?, Ne.symm h]
  | cons a fs ih =>
    obtain ⟨ak, av⟩ := a
    by_cases ha : ak = k
    · subst ha
      simp [setField, List.find?, Ne.symm h]
    · by_cases ha' : ak = k'
      · simp [setField, ha, List.find?, ha', h]
      · simp [setField, ha, List.find?, ha', ih]

theorem jGet_jSet_same (fs : List (String × JValue)) (k : String) (x : JValue) :
    jGet (jSet (.obj fs) k x) k = some x := by
  simp [jGet, jSet, find_setField]

theorem jGet_jSet_other (fs : List (String × JValue)) (k k' : String) (x : JValue)
    (h : k' ≠ k) : jGet (jSet (.obj fs) k x) k' = jGet (.obj fs) k' := by
  simp [jGet, jSet, find_setField_other fs k k' x h]

theorem jSet_obj_isObj (fs : List (String × JValue)) (k : String) (x : JValue) :
    ∃ fs', jSet (.obj fs) k x = .obj fs' := ⟨setField fs k x, rfl⟩

/-! ## Concrete fixtures used by witnesses and counterexamples -/

def demoUser : User := { id := 7, clerkUserId := "clerk7", industry := some "tech" }

def demoSession : Session :=
  { id := 1, userId := 7, sessionType := "mock", industry := none, role := "dev",
    difficulty := "intermediate", duration := 30, status := .IN_PROGRESS,
    questions := [], overallScore := none, technicalScore := none,
    communicationScore := none, confidenceScore := none, strengths := none,
    weaknesses := none, detailedFeedback := none, startedAt := some 5, endedAt := none }

def demoStore : Store := { users := [demoUser], sessions := [demoSession], analytics := [] }

def demoCompletedStore : Store :=
  { users := [demoUser], sessions := [{ demoSession with status := .COMPLETED }], analytics := [] }

/-- A transcript comfortably over the 10-character threshold. -/
def longTranscript : String := "0123456789abc"

/-! ## Claims -/

/-- C1: for every session that exists in the store, whenever feedback
derivation fails (an unexpected internal error in the deriver) or times out
(the 30-second race inside `handleInterviewComplete`), the session is
persisted with status COMPLETED — never left IN_PROGRESS — with a non-null
`detailedFeedback` and `overallScore` 50. -/
theorem c1_complete_degraded_terminal (st : Store) (authId : Option String) (sid : Nat)
    (tr : String) (ms : List Message) (step : FeedbackStep) (now : Nat) (s : Session)
    (hs : findSession st sid = some s)
    (hstep : step = .timedOut ∨ step = .ran .fatal) :
    ∃ s', findSession (handleInterviewComplete st authId sid tr ms step now).2 sid = some s'
      ∧ s'.status = .COMPLETED ∧ s'.overallScore = some 50 ∧ s'.detailedFeedback ≠ none := by
  have hs1 : findSession (upsertAnalyticsComplete st s.userId sid
      (jsOrStr tr "No transcript available") ms.length s.startedAt now) sid = some s := by
    rw [findSession_upsertAnalyticsComplete]; exact hs
  rcases hstep with h | h <;> subst h
  · refine ⟨applyTimeoutUpdate now s, ?_, rfl, rfl, by simp [applyTimeoutUpdate]⟩
    simp only [handleInterviewComplete, hs]
    rw [findSession_updateSession _ sid (applyTimeoutUpdate now) (fun _ => rfl), hs1]
    rfl
  · refine ⟨applyFatalUpdate now s, ?_, rfl, rfl, by simp [applyFatalUpdate]⟩
    simp only [handleInterviewComplete, generateFeedbackFromTranscript, hs]
    rw [findSession_updateSession _ sid (applyFatalUpdate now) (fun _ => rfl), hs1]
    rfl

/-- C1 witness: the theorem applied at a concrete store whose only session is
IN_PROGRESS, with the timeout branch taken. -/
theorem c1_witness :
    ∃ s', findSession (handleInterviewComplete demoStore none 1 "t" [] .timedOut 9).2 1 = some s'
      ∧ s'.status = .COMPLETED ∧ s'.overallScore = some 50 ∧ s'.detailedFeedback ≠ none :=
  c1_complete_degraded_terminal demoStore none 1 "t" [] .timedOut 9 demoSession rfl (Or.inl rfl)

/-- Helper: every run of the feedback deriver on a session that exists in its
store leaves that session with status COMPLETED (each of its five write
paths sets COMPLETED). -/
theorem feedback_run_completes (st : Store) (sid : Nat) (tr : String) (ms : List Message)
    (run : FeedbackRun) (now : Nat) (t : Session)
    (ht : findSession st sid = some t) :
    (findSession (generateFeedbackFromTranscript st sid tr ms run now).2 sid).map (fun x => x.status)
      = some SessionStatus.COMPLETED := by
  cases run with
  | fatal =>
    simp only [generateFeedbackFromTranscript]
    rw [findSession_updateSession]
    · rw [ht]; rfl
    · intro x; rfl
  | normal model =>
    simp only [generateFeedbackFromTranscript, ht]
    by_cases hlen : (jsTrim (normalizeTranscript ms tr)).data.length < 10
    · rw [if_pos hlen, findSession_updateSession]
      · rw [findSession_upsertAnalyticsTranscript, ht]; rfl
      · intro x; rfl
    · rw [if_neg hlen]
      cases model with
      | failure =>
        rw [findSession_updateSession]
        · rw [findSession_recordModelError, findSession_upsertAnalyticsTranscript, ht]; rfl
        · intro x; rfl
      | success raw =>
        rcases hj : jsonParse (cleanResponse raw) with _ | v
        · simp only [hj, synthFallbackDoc]
          split
          · rw [findSession_updateSession]
            · rw [findSession_upsertAnalyticsTranscript, ht]; rfl
            · intro x; rfl
          · rw [findSession_upsertAnalyticsRawOutput, findSession_updateSession]
            · rw [findSession_upsertAnalyticsTranscript, ht]; rfl
            · intro x; rfl
        · cases v with
          | obj fs =>
            simp only [hj]
            split
            · rw [findSession_updateSession]
              · rw [findSession_upsertAnalyticsTranscript, ht]; rfl
              · intro x; rfl
            · rw [findSession_upsertAnalyticsRawOutput, findSession_updateSession]
              · rw [findSession_upsertAnalyticsTranscript, ht]; rfl
              · intro x; rfl
          | null =>
            simp only [hj]
            rw [findSession_updateSession]
            · rw [findSession_upsertAnalyticsTranscript, ht]; rfl
            · intro x; rfl
          | bool b =>
            simp only [hj]
            rw [findSession_updateSession]
            · rw [findSession_upsertAnalyticsTranscript, ht]; rfl
            · intro x; rfl
          | num n =>
            simp only [hj]
            rw [findSession_updateSession]
            · rw [findSession_upsertAnalyticsTranscript, ht]; rfl
            · intro x; rfl
          | str s =>
            simp only [hj]
            rw [findSession_updateSession]
            · rw [findSession_upsertAnalyticsTranscript, ht]; rfl
            · intro x; rfl
          | arr xs =>
            simp only [hj]
            rw [findSession_updateSession]
            · rw [findSession_upsertAnalyticsTranscript, ht]; rfl
            · intro x; rfl

/-- C2 counterexample: the claim that a COMPLETED session is immutable for
status purposes is false — `startInterviewWithQuestions` never inspects the
current status, and applied to a COMPLETED session it rewrites the status
back to IN_PROGRESS. -/
theorem c2_cx :
    ((findSession demoCompletedStore 1).map (fun s => s.status) = some SessionStatus.COMPLETED)
    ∧ ((findSession (startInterviewWithQuestions demoCompletedStore (some "clerk7") 1 false 9).2 1).map
        (fun s => s.status) = some SessionStatus.IN_PROGRESS) :=
  ⟨rfl, rfl⟩

/-- C2 (amended): each operation writes only its own target statuses —
`create` stores a new SCHEDULED session, `start` unconditionally writes
IN_PROGRESS (success) or FAILED (failure), and `complete` drives any
existing session to COMPLETED — but no operation guards on the current
status, so `start` applied to a COMPLETED or FAILED session resets it to
IN_PROGRESS; terminal statuses are not immutable. -/
theorem c2_amended_no_status_guard (st : Store) (cid : String) (sid : Nat) (tryFails : Bool)
    (now : Nat) (user : User) (s t : Session)
    (hu : findUserByClerk st cid = some user)
    (ho : findSessionOwned st sid user.id = some s)
    (ht : findSession st sid = some t) :
    ((findSession (startInterviewWithQuestions st (some cid) sid tryFails now).2 sid).map
        (fun x => x.status) = some (if tryFails then SessionStatus.FAILED else .IN_PROGRESS))
    ∧ (∀ (authId : Option String) (tr : String) (ms : List Message) (step : FeedbackStep),
        (findSession (handleInterviewComplete st authId sid tr ms step now).2 sid).map
          (fun x => x.status) = some SessionStatus.COMPLETED) := by
  constructor
  · cases tryFails with
    | true =>
      simp only [startInterviewWithQuestions, hu, ho, if_true]
      rw [findSession_updateSession]
      · rw [ht]; rfl
      · intro x; rfl
    | false =>
      simp only [startInterviewWithQuestions, hu, ho, Bool.false_eq_true, if_false]
      rw [findSession_updateSession]
      · rw [ht]; rfl
      · intro x; rfl
  · intro authId tr ms step
    simp only [handleInterviewComplete, ht]
    have ht1 : findSession (upsertAnalyticsComplete st t.userId sid
        (jsOrStr tr "No transcript available") ms.length t.startedAt now) sid = some t := by
      rw [findSession_upsertAnalyticsComplete]; exact ht
    cases step with
    | ran run => exact feedback_run_completes _ sid tr ms run now t ht1
    | timedOut =>
      rw [findSession_updateSession]
      · rw [ht1]; rfl
      · intro x; rfl

/-- C2 witness (for the amended theorem): on a store whose only session is
COMPLETED, `start` rewrites the status to IN_PROGRESS, and `complete` leaves
it COMPLETED. -/
theorem c2_amended_witness :
    ((findSession (startInterviewWithQuestions demoCompletedStore (some "clerk7") 1 false 9).2 1).map
        (fun x => x.status) = some SessionStatus.IN_PROGRESS)
    ∧ ((findSession (handleInterviewComplete demoCompletedStore none 1 "t" [] .timedOut 9).2 1).map
        (fun x => x.status) = some SessionStatus.COMPLETED) := by
  have h := c2_amended_no_status_guard demoCompletedStore "clerk7" 1 false 9 demoUser
    { demoSession with status := .COMPLETED } { demoSession with status := .COMPLETED } rfl rfl rfl
  exact ⟨h.1, h.2 none "t" [] .timedOut⟩

/-- C3 counterexample: with no authenticated identity at all,
`handleInterviewComplete` does not fail with Unauthorized — it returns ok and
mutates the session (owned by user 7) found by id alone. -/
theorem c3_cx :
    ((handleInterviewComplete demoStore none 1 "t" [] .timedOut 9).1.toOption.isSome = true)
    ∧ ((findSession demoStore 1).map (fun s => (s.userId, s.overallScore)) = some (7, none))
    ∧ ((findSession (handleInterviewComplete demoStore none 1 "t" [] .timedOut 9).2 1).map
        (fun s => (s.userId, s.overallScore)) = some (7, some 50)) :=
  ⟨rfl, rfl, rfl⟩

/-- C3 (amended): `handleInterviewComplete` performs no authentication or
ownership check. Its outcome is identical for every caller identity
(including an absent one), it never fails with Unauthorized, and for any
existing session — whoever owns it — it proceeds and returns ok. -/
theorem c3_amended_no_auth_scoping (st : Store) (authId : Option String) (sid : Nat)
    (tr : String) (ms : List Message) (step : FeedbackStep) (now : Nat) (s : Session)
    (hs : findSession st sid = some s) :
    handleInterviewComplete st authId sid tr ms step now
      = handleInterviewComplete st none sid tr ms step now
    ∧ ∃ out, (handleInterviewComplete st authId sid tr ms step now).1 = .ok out := by
  refine ⟨rfl, ?_⟩
  simp only [handleInterviewComplete, hs]
  cases step with
  | ran run => exact ⟨_, rfl⟩
  | timedOut => exact ⟨_, rfl⟩

/-- C3 witness: the amended theorem applied with an arbitrary identity and a
fatal derivation run on the demo store. -/
theorem c3_amended_witness :
    handleInterviewComplete demoStore (some "attacker") 1 "t" [] (.ran .fatal) 9
      = handleInterviewComplete demoStore none 1 "t" [] (.ran .fatal) 9
    ∧ ∃ out, (handleInterviewComplete demoStore (some "attacker") 1 "t" [] (.ran .fatal) 9).1
        = .ok out :=
  c3_amended_no_auth_scoping demoStore (some "attacker") 1 "t" [] (.ran .fatal) 9 demoSession rfl

/-- C4: for an existing session, when neither the messages nor the
transcript yields a normalized transcript of at least 10 characters after
trimming, the deriver returns the deterministic degraded document — five
category scores of 50 with comment "No transcript provided" — and persists
status COMPLETED with all four score fields non-null (each 50). -/
theorem c4_empty_transcript_degraded (st : Store) (sid : Nat) (tr : String) (ms : List Message)
    (model : GenOutcome) (now : Nat) (s : Session)
    (hs : findSession st sid = some s)
    (hlen : (jsTrim (normalizeTranscript ms tr)).data.length < 10) :
    (generateFeedbackFromTranscript st sid tr ms (.normal model) now).1 = some noTranscriptDoc
    ∧ (jCats noTranscriptDoc).map (fun c => jGet c "score") = List.replicate 5 (some (.num 50))
    ∧ (jCats noTranscriptDoc).map (fun c => jGet c "comment")
        = List.replicate 5 (some (.str "No transcript provided"))
    ∧ ∃ s', findSession (generateFeedbackFromTranscript st sid tr ms (.normal model) now).2 sid
          = some s'
        ∧ s'.status = .COMPLETED ∧ s'.overallScore = some 50 ∧ s'.technicalScore = some 50
        ∧ s'.communicationScore = some 50 ∧ s'.confidenceScore = some 50 := by
  refine ⟨?_, rfl, rfl, ?_⟩
  · simp only [generateFeedbackFromTranscript, hs, if_pos hlen]
  · refine ⟨applyNoTranscriptUpdate now s, ?_, rfl, rfl, rfl, rfl, rfl⟩
    simp only [generateFeedbackFromTranscript, hs, if_pos hlen]
    rw [findSession_updateSession]
    · rw [findSession_upsertAnalyticsTranscript, hs]; rfl
    · intro x; rfl

/-- C4 witness: a two-character transcript and no messages on the demo
store. -/
theorem c4_witness :
    (generateFeedbackFromTranscript demoStore 1 "hi" [] (.normal .failure) 9).1
        = some noTranscriptDoc
    ∧ (jCats noTranscriptDoc).map (fun c => jGet c "score") = List.replicate 5 (some (.num 50))
    ∧ (jCats noTranscriptDoc).map (fun c => jGet c "comment")
        = List.replicate 5 (some (.str "No transcript provided"))
    ∧ ∃ s', findSession (generateFeedbackFromTranscript demoStore 1 "hi" [] (.normal .failure) 9).2 1
          = some s'
        ∧ s'.status = .COMPLETED ∧ s'.overallScore = some 50 ∧ s'.technicalScore = some 50
        ∧ s'.communicationScore = some 50 ∧ s'.confidenceScore = some 50 :=
  c4_empty_transcript_degraded demoStore 1 "hi" [] .failure 9 demoSession rfl (by decide)

/-- C5: for an existing session whose normalized transcript reaches the
threshold, a failure of the text-generation call itself is caught — the
deriver returns (rather than raises) the distinct degraded document with
totalScore 60 and five category scores of 60, and persists it with status
COMPLETED. -/
theorem c5_model_failure_degraded (st : Store) (sid : Nat) (tr : String) (ms : List Message)
    (now : Nat) (s : Session)
    (hs : findSession st sid = some s)
    (hlen : ¬ (jsTrim (normalizeTranscript ms tr)).data.length < 10) :
    (generateFeedbackFromTranscript st sid tr ms (.normal .failure) now).1 = some modelErrorDoc
    ∧ jGet modelErrorDoc "totalScore" = some (.num 60)
    ∧ (jCats modelErrorDoc).map (fun c => jGet c "score") = List.replicate 5 (some (.num 60))
    ∧ ∃ s', findSession (generateFeedbackFromTranscript st sid tr ms (.normal .failure) now).2 sid
          = some s'
        ∧ s'.status = .COMPLETED ∧ s'.overallScore = some 60 ∧ s'.technicalScore = some 60
        ∧ s'.communicationScore = some 60 ∧ s'.confidenceScore = some 60 := by
  refine ⟨?_, rfl, rfl, ?_⟩
  · simp only [generateFeedbackFromTranscript, hs, if_neg hlen]
  · refine ⟨applyModelErrorUpdate now s, ?_, rfl, rfl, rfl, rfl, rfl⟩
    simp only [generateFeedbackFromTranscript, hs, if_neg hlen]
    rw [findSession_updateSession]
    · rw [findSession_recordModelError, findSession_upsertAnalyticsTranscript, hs]; rfl
    · intro x; rfl

/-- C5 witness: a 13-character transcript with a collaborator failure on the
demo store. -/
theorem c5_witness :
    (generateFeedbackFromTranscript demoStore 1 longTranscript [] (.normal .failure) 9).1
        = some modelErrorDoc
    ∧ jGet modelErrorDoc "totalScore" = some (.num 60)
    ∧ (jCats modelErrorDoc).map (fun c => jGet c "score") = List.replicate 5 (some (.num 60))
    ∧ ∃ s', findSession
          (generateFeedbackFromTranscript demoStore 1 longTranscript [] (.normal .failure) 9).2 1
          = some s'
        ∧ s'.status = .COMPLETED ∧ s'.overallScore = some 60 ∧ s'.technicalScore = some 60
        ∧ s'.communicationScore = some 60 ∧ s'.confidenceScore = some 60 :=
  c5_model_failure_degraded demoStore 1 longTranscript [] 9 demoSession rfl (by decide)

/-- C6: whenever the cleaned collaborator response (after fence stripping and
brace-delimited extraction) fails to parse as JSON, the deriver synthesizes
the uniform document: five category scores of 75; a totalScore recovered
from the first `NN/100` pattern or bare 1–3 digit number of the cleaned
text, clamped to 0..100, defaulting to 75 when no number is found; and a
1000-character excerpt of the cleaned response as `finalAssessment`. The
returned document is this synthesized one (after the structural
normalization every document passes through). -/
theorem c6_parse_failure_synthesis (st : Store) (sid : Nat) (tr : String) (ms : List Message)
    (raw : String) (now : Nat) (s : Session)
    (hs : findSession st sid = some s)
    (hlen : ¬ (jsTrim (normalizeTranscript ms tr)).data.length < 10)
    (hparse : jsonParse (cleanResponse raw) = none) :
    (generateFeedbackFromTranscript st sid tr ms (.normal (.success raw)) now).1
        = some (finalizeFeedback (synthFallbackDoc (cleanResponse raw)) (cleanResponse raw)).1
    ∧ (jCats (synthFallbackDoc (cleanResponse raw))).map (fun c => jGet c "score")
        = List.replicate 5 (some (.num 75))
    ∧ (∀ g, recoverTotalGuess (cleanResponse raw).data = some g →
        jGet (synthFallbackDoc (cleanResponse raw)) "totalScore"
            = some (.num (Int.ofNat (min g 100)))
          ∧ 0 ≤ (Int.ofNat (min g 100) : Int) ∧ (Int.ofNat (min g 100) : Int) ≤ 100)
    ∧ (recoverTotalGuess (cleanResponse raw).data = none →
        jGet (synthFallbackDoc (cleanResponse raw)) "totalScore" = some (.num 75))
    ∧ jGet (synthFallbackDoc (cleanResponse raw)) "finalAssessment"
        = some (.str (takeChars (cleanResponse raw) 1000)) := by
  refine ⟨?_, rfl, ?_, ?_, rfl⟩
  · simp only [generateFeedbackFromTranscript, hs, if_neg hlen, hparse, synthFallbackDoc]
    rfl
  · intro g hg
    refine ⟨?_, Int.ofNat_nonneg _, Int.ofNat_le.mpr (min_le_right g 100)⟩
    simp [synthFallbackDoc, jGet, List.find?, hg]
  · intro hg
    simp [synthFallbackDoc, jGet, List.find?, hg]

/-- C6 witness: the response `Total: 85/100 ok` is not JSON; the recovered
totalScore is 85 and the synthesized categories are all 75. -/
theorem c6_witness :
    (generateFeedbackFromTranscript demoStore 1 longTranscript []
          (.normal (.success "Total: 85/100 ok")) 9).1
        = some (finalizeFeedback (synthFallbackDoc (cleanResponse "Total: 85/100 ok"))
            (cleanResponse "Total: 85/100 ok")).1
    ∧ (jCats (synthFallbackDoc (cleanResponse "Total: 85/100 ok"))).map (fun c => jGet c "score")
        = List.replicate 5 (some (.num 75))
    ∧ (∀ g, recoverTotalGuess (cleanResponse "Total: 85/100 ok").data = some g →
        jGet (synthFallbackDoc (cleanResponse "Total: 85/100 ok")) "totalScore"
            = some (.num (Int.ofNat (min g 100)))
          ∧ 0 ≤ (Int.ofNat (min g 100) : Int) ∧ (Int.ofNat (min g 100) : Int) ≤ 100)
    ∧ (recoverTotalGuess (cleanResponse "Total: 85/100 ok").data = none →
        jGet (synthFallbackDoc (cleanResponse "Total: 85/100 ok")) "totalScore" = some (.num 75))
    ∧ jGet (synthFallbackDoc (cleanResponse "Total: 85/100 ok")) "finalAssessment"
        = some (.str (takeChars (cleanResponse "Total: 85/100 ok") 1000)) :=
  c6_parse_failure_synthesis demoStore 1 longTranscript [] "Total: 85/100 ok" 9 demoSession
    rfl (by decide) rfl

/-- Helper: on the main path (existing session, long enough transcript,
response parsed to a JSON object, category finds completing without a
TypeError) the session row is the result of `applyFeedbackUpdate` with the
data computed by `finalizeFeedback`. -/
theorem feedback_mainPath_persisted (st : Store) (sid : Nat) (tr : String) (ms : List Message)
    (raw : String) (now : Nat) (s : Session) (fs : List (String × JValue)) (upd : UpdateData)
    (hs : findSession st sid = some s)
    (hlen : ¬ (jsTrim (normalizeTranscript ms tr)).data.length < 10)
    (hparse : jsonParse (cleanResponse raw) = some (.obj fs))
    (hupd : (finalizeFeedback (.obj fs) (cleanResponse raw)).2 = .ok upd) :
    findSession (generateFeedbackFromTranscript st sid tr ms (.normal (.success raw)) now).2 sid
      = some (applyFeedbackUpdate upd now s) := by
  simp only [generateFeedbackFromTranscript, hs, if_neg hlen, hparse, hupd]
  rw [findSession_upsertAnalyticsRawOutput, findSession_updateSession]
  · rw [findSession_upsertAnalyticsTranscript, hs]; rfl
  · intro x; rfl

/-- Helper: a truthy numeric `totalScore` survives line 382 untouched. -/
theorem ensureTotal_pos (fb : JValue) (n : Int)
    (htot : jGet fb "totalScore" = some (.num n)) (hnz : n ≠ 0) :
    ensureTotal fb = .num n := by
  simp [ensureTotal, htot, jTruthyV, hnz]

/-- Helper: a `totalScore` of 0 is falsy and replaced by 75 at line 382. -/
theorem ensureTotal_zero (fb : JValue)
    (htot : jGet fb "totalScore" = some (.num 0)) :
    ensureTotal fb = .num 75 := by
  simp [ensureTotal, htot, jTruthyV]

/-- Helper: with a non-empty `categoryScores` array whose three named finds
complete without hitting a null entry, `finalizeFeedback` yields update data
whose fields are the `Math.round(..) || d` of the respective lookups. -/
theorem finalizeFeedback_fields (fs : List (String × JValue)) (cleaned : String)
    (c : JValue) (cs : List JValue) (vt vk vf : Option JValue)
    (hcats : jGet (.obj fs) "categoryScores" = some (.arr (c :: cs)))
    (htech : catScoreOfE (c :: cs) "Technical Knowledge" = .ok vt)
    (hcomm : catScoreOfE (c :: cs) "Communication Skills" = .ok vk)
    (hconf : catScoreOfE (c :: cs) "Confidence and Clarity" = .ok vf) :
    ∃ upd, (finalizeFeedback (.obj fs) cleaned).2 = Except.ok upd
      ∧ upd.overallScore = jsRoundOr (some (ensureTotal (.obj fs))) 75
      ∧ upd.technicalScore = jsRoundOr vt 50
      ∧ upd.communicationScore = jsRoundOr vk 50
      ∧ upd.confidenceScore = jsRoundOr vf 50 := by
  simp only [finalizeFeedback]
  rw [jGet_jSet_other _ _ _ _ (by decide)]
  simp only [hcats, htech, hcomm, hconf]
  exact ⟨_, rfl, rfl, rfl, rfl, rfl⟩

/-- A well-formed feedback response with totalScore 85 whose Technical
Knowledge category scores 0. -/
def c7rawZero : String :=
  "\x7b\"totalScore\": 85, \"categoryScores\": [\x7b\"name\": \"Communication Skills\", \"score\": 70, \"comment\": \"c\"\x7d, \x7b\"name\": \"Technical Knowledge\", \"score\": 0, \"comment\": \"c\"\x7d, \x7b\"name\": \"Problem Solving\", \"score\": 80, \"comment\": \"c\"\x7d, \x7b\"name\": \"Cultural Fit\", \"score\": 90, \"comment\": \"c\"\x7d, \x7b\"name\": \"Confidence and Clarity\", \"score\": 60, \"comment\": \"c\"\x7d], \"strengths\": [], \"areasForImprovement\": [], \"finalAssessment\": \"good\"\x7d"

/-- The same document with Technical Knowledge scoring 77. -/
def c7rawGood : String :=
  "\x7b\"totalScore\": 85, \"categoryScores\": [\x7b\"name\": \"Communication Skills\", \"score\": 70, \"comment\": \"c\"\x7d, \x7b\"name\": \"Technical Knowledge\", \"score\": 77, \"comment\": \"c\"\x7d, \x7b\"name\": \"Problem Solving\", \"score\": 80, \"comment\": \"c\"\x7d, \x7b\"name\": \"Cultural Fit\", \"score\": 90, \"comment\": \"c\"\x7d, \x7b\"name\": \"Confidence and Clarity\", \"score\": 60, \"comment\": \"c\"\x7d], \"strengths\": [], \"areasForImprovement\": [], \"finalAssessment\": \"good\"\x7d"

set_option maxRecDepth 100000 in
/-- C7 counterexample: a parseable document with totalScore 85 and five
named categories whose Technical Knowledge score is 0 — a valid value in the
0–100 range — is persisted with `technicalScore` 50, not 0, because of the
`|| 50` fallback; so "technicalScore equals the Technical Knowledge
category's score" fails as stated. -/
theorem c7_cx :
    ((jsonParse (cleanResponse c7rawZero)).map (fun doc =>
        (jGet doc "totalScore", catScoreOf (jCats doc) "Technical Knowledge"))
      = some (some (.num 85), some (.num 0)))
    ∧ ((findSession (generateFeedbackFromTranscript demoStore 1 longTranscript []
          (.normal (.success c7rawZero)) 9).2 1).map (fun s => (s.overallScore, s.technicalScore))
      = some (some 85, some 50)) :=
  ⟨rfl, rfl⟩

/-- C7 (amended): for an existing session whose transcript scores to a
parseable document with totalScore 85 and a non-empty category list, and
whose three named-category `find` calls complete without a TypeError (no
null entry is scanned before a match — a null entry hit by a callback
instead routes the document through the fatal catch), the persisted
`overallScore` is 85, and the persisted `technicalScore` equals the
Technical Knowledge category's score whenever that score is a nonzero
number (a zero — or missing or non-numeric — score is persisted as the
default 50). -/
theorem c7_amended_scores_persisted (st : Store) (sid : Nat) (tr : String) (ms : List Message)
    (raw : String) (now : Nat) (s : Session) (fs : List (String × JValue)) (cats : List JValue)
    (t : Int) (vk vf : Option JValue)
    (hs : findSession st sid = some s)
    (hlen : ¬ (jsTrim (normalizeTranscript ms tr)).data.length < 10)
    (hparse : jsonParse (cleanResponse raw) = some (.obj fs))
    (htot : jGet (.obj fs) "totalScore" = some (.num 85))
    (hcats : jGet (.obj fs) "categoryScores" = some (.arr cats))
    (hcne : cats ≠ [])
    (htech : catScoreOfE cats "Technical Knowledge" = .ok (some (.num t)))
    (htnz : t ≠ 0)
    (hcomm : catScoreOfE cats "Communication Skills" = .ok vk)
    (hconf : catScoreOfE cats "Confidence and Clarity" = .ok vf) :
    ∃ s', findSession (generateFeedbackFromTranscript st sid tr ms (.normal (.success raw)) now).2 sid
        = some s'
      ∧ s'.overallScore = some 85 ∧ s'.technicalScore = some t
      ∧ s'.status = .COMPLETED := by
  obtain ⟨c, cs, rfl⟩ : ∃ c cs, cats = c :: cs := by
    cases cats with
    | nil => exact absurd rfl hcne
    | cons c cs => exact ⟨c, cs, rfl⟩
  obtain ⟨upd, hupd, hov, htc, -, -⟩ :=
    finalizeFeedback_fields fs (cleanResponse raw) c cs (some (.num t)) vk vf hcats htech hcomm hconf
  refine ⟨applyFeedbackUpdate upd now s,
    feedback_mainPath_persisted st sid tr ms raw now s fs upd hs hlen hparse hupd, ?_, ?_, rfl⟩
  · show some upd.overallScore = some 85
    rw [hov, ensureTotal_pos (.obj fs) 85 htot (by decide)]
    rfl
  · show some upd.technicalScore = some t
    rw [htc]
    simp [jsRoundOr, jsRound, jsOrInt, htnz]

set_option maxRecDepth 100000 in
/-- C7 witness: the amended theorem applied at `c7rawGood`, whose Technical
Knowledge score is 77 and whose categories contain no null entry. -/
theorem c7_amended_witness :
    ∃ s', findSession (generateFeedbackFromTranscript demoStore 1 longTranscript []
          (.normal (.success c7rawGood)) 9).2 1 = some s'
      ∧ s'.overallScore = some 85 ∧ s'.technicalScore = some 77
      ∧ s'.status = .COMPLETED :=
  c7_amended_scores_persisted demoStore 1 longTranscript [] c7rawGood 9 demoSession
    [("totalScore", .num 85),
     ("categoryScores", .arr
       [catObj "Communication Skills" (.num 70) "c",
        catObj "Technical Knowledge" (.num 77) "c",
        catObj "Problem Solving" (.num 80) "c",
        catObj "Cultural Fit" (.num 90) "c",
        catObj "Confidence and Clarity" (.num 60) "c"]),
     ("strengths", .arr []), ("areasForImprovement", .arr []),
     ("finalAssessment", .str "good")]
    [catObj "Communication Skills" (.num 70) "c",
     catObj "Technical Knowledge" (.num 77) "c",
     catObj "Problem Solving" (.num 80) "c",
     catObj "Cultural Fit" (.num 90) "c",
     catObj "Confidence and Clarity" (.num 60) "c"]
    77 (some (.num 70)) (some (.num 60))
    rfl (by decide) rfl rfl rfl (by simp) rfl (by decide) rfl rfl

/-- C8 counterexample: the response `42` parses as JSON but not as a JSON
array; `Array.isArray` coercion then stores the empty list — not the 8-item
fallback — on the created session. -/
theorem c8_cx :
    ((createInterviewSession demoStore (some "clerk7") { role := "dev" } (.success "42") 2).toOption.map
        (fun p => p.1.questions) = some [])
    ∧ (fallbackQuestions "dev").length = 8 :=
  ⟨rfl, rfl⟩

/-- C8 (amended): when the collaborator call fails, or its output fails to
parse as JSON at all, the stored question list equals the fixed fallback
list of 8 questions with the role interpolated; output that parses as JSON
but not as an array is instead stored as the empty list (see the
counterexample). -/
theorem c8_amended_fallback_questions (st : Store) (cid : String) (d : SessionData)
    (model : GenOutcome) (newId : Nat) (user : User)
    (hu : findUserByClerk st cid = some user)
    (hm : model = .failure ∨ ∃ raw, model = .success raw
        ∧ jsonParse (jsTrim (String.mk (stripFences raw.data))) = none) :
    (createInterviewSession st (some cid) d model newId).toOption.map (fun p => p.1.questions)
      = some (fallbackQuestions d.role) := by
  rcases hm with h | ⟨raw, h, hp⟩ <;> subst h
  · simp [createInterviewSession, generateInterviewQuestions, hu, Except.toOption]
  · simp [createInterviewSession, generateInterviewQuestions, hu, hp, Except.toOption]

/-- C8 witness: a collaborator failure on the demo store stores the 8
fallback questions. -/
theorem c8_amended_witness :
    (createInterviewSession demoStore (some "clerk7") { role := "dev" } .failure 2).toOption.map
        (fun p => p.1.questions) = some (fallbackQuestions "dev") :=
  c8_amended_fallback_questions demoStore "clerk7" { role := "dev" } .failure 2 demoUser rfl
    (Or.inl rfl)

/-- C9 counterexample: the collaborator response is stored unfiltered — with
output `["a/b"]` the created session (valid role `dev`) stores a question
containing `/`. -/
theorem c9_cx :
    ((createInterviewSession demoStore (some "clerk7") { role := "dev" } (.success "[\"a/b\"]") 2).toOption.map
        (fun p => p.1.questions) = some [.str "a/b"])
    ∧ ("a/b".data.any (fun c => c = '/') = true) :=
  ⟨rfl, by decide⟩

/-- C9 (amended): the non-emptiness and character guarantee holds on the
fallback path: when the collaborator fails, the stored list is the 8
fallback questions — non-empty, each a plain string containing neither `/`
nor `*` provided the interpolated role contains neither. A successfully
parsed JSON array is stored as-is with no filtering (see the
counterexample). -/
theorem c9_amended_fallback_clean (st : Store) (cid : String) (d : SessionData) (newId : Nat)
    (user : User)
    (hu : findUserByClerk st cid = some user)
    (hrole : d.role.data.all (fun c => !(c = '/' || c = '*')) = true) :
    ((createInterviewSession st (some cid) d .failure newId).toOption.map
        (fun p => p.1.questions) = some (fallbackQuestions d.role))
    ∧ fallbackQuestions d.role ≠ []
    ∧ ∀ q ∈ fallbackQuestions d.role, ∃ t, q = JValue.str t
        ∧ t.data.all (fun c => !(c = '/' || c = '*')) = true := by
  refine ⟨by simp [createInterviewSession, generateInterviewQuestions, hu, Except.toOption],
    by simp [fallbackQuestions], ?_⟩
  intro q hq
  simp only [fallbackQuestions, List.mem_cons, List.not_mem_nil, or_false] at hq
  rcases hq with rfl | rfl | rfl | rfl | rfl | rfl | rfl | rfl
  · exact ⟨_, rfl, by decide⟩
  · refine ⟨_, rfl, ?_⟩
    show (("What interests you most about working as a " ++ d.role ++ "?").data.all
      (fun c => !(c = '/' || c = '*'))) = true
    rw [String.data_append, String.data_append, List.all_append, List.all_append, hrole]
    decide
  · exact ⟨_, rfl, by decide⟩
  · exact ⟨_, rfl, by decide⟩
  · exact ⟨_, rfl, by decide⟩
  · exact ⟨_, rfl, by decide⟩
  · exact ⟨_, rfl, by decide⟩
  · exact ⟨_, rfl, by decide⟩

/-- C9 witness: the amended theorem at role `dev`. -/
theorem c9_amended_witness :
    ((createInterviewSession demoStore (some "clerk7") { role := "dev" } .failure 3).toOption.map
        (fun p => p.1.questions) = some (fallbackQuestions "dev"))
    ∧ fallbackQuestions "dev" ≠ []
    ∧ ∀ q ∈ fallbackQuestions "dev", ∃ t, q = JValue.str t
        ∧ t.data.all (fun c => !(c = '/' || c = '*')) = true :=
  c9_amended_fallback_clean demoStore "clerk7" { role := "dev" } 3 demoUser rfl (by decide)

/-- A parsed document carrying a zero totalScore and a zero Technical
Knowledge category hidden behind a null entry. -/
def c10nullRaw : String :=
  "\x7b\"totalScore\": 0, \"categoryScores\": [null, \x7b\"name\": \"Technical Knowledge\", \"score\": 0, \"comment\": \"c\"\x7d], \"finalAssessment\": \"f\"\x7d"

set_option maxRecDepth 100000 in
/-- C10 counterexample: a parsed feedback document with totalScore 0 and a
zero-score Technical Knowledge category — squarely inside the claim's scope
— whose `categoryScores` also contains a null entry. The `find` callback of
line 398 reads `name` on the null entry and throws, so the document takes
the fatal catch: the persisted `overallScore` is 50 (not the claimed 75) and
`technicalScore` is left null (not the claimed 50). -/
theorem c10_cx :
    ((jsonParse (cleanResponse c10nullRaw)).map (fun doc => (jGet doc "totalScore", jCats doc))
      = some (some (.num 0), [JValue.null, catObj "Technical Knowledge" (.num 0) "c"]))
    ∧ ((findSession (generateFeedbackFromTranscript demoStore 1 longTranscript []
          (.normal (.success c10nullRaw)) 9).2 1).map (fun s => (s.overallScore, s.technicalScore))
      = some (some 50, none)) :=
  ⟨rfl, rfl⟩

/-- C10 (amended): zero scores are never persisted as zero, provided the
three named-category `find` calls complete without a TypeError (no null
entry is scanned before a match): a parsed `totalScore` of 0 is falsy,
replaced by 75 before `overallScore` is written, and a Technical Knowledge /
Communication Skills / Confidence and Clarity lookup yielding 0 falls
through `|| 50` and is persisted as 50. A document whose lookup hits a null
entry is instead persisted through the fatal catch (overallScore 50,
category fields untouched). -/
theorem c10_amended_zero_scores_defaulted (st : Store) (sid : Nat) (tr : String)
    (ms : List Message) (raw : String) (now : Nat) (s : Session) (fs : List (String × JValue))
    (cats : List JValue) (vt vk vf : Option JValue)
    (hs : findSession st sid = some s)
    (hlen : ¬ (jsTrim (normalizeTranscript ms tr)).data.length < 10)
    (hparse : jsonParse (cleanResponse raw) = some (.obj fs))
    (hcats : jGet (.obj fs) "categoryScores" = some (.arr cats))
    (hcne : cats ≠ [])
    (htech : catScoreOfE cats "Technical Knowledge" = .ok vt)
    (hcomm : catScoreOfE cats "Communication Skills" = .ok vk)
    (hconf : catScoreOfE cats "Confidence and Clarity" = .ok vf) :
    ∃ s', findSession (generateFeedbackFromTranscript st sid tr ms (.normal (.success raw)) now).2 sid
        = some s'
      ∧ (jGet (.obj fs) "totalScore" = some (.num 0) → s'.overallScore = some 75)
      ∧ (vt = some (.num 0) → s'.technicalScore = some 50)
      ∧ (vk = some (.num 0) → s'.communicationScore = some 50)
      ∧ (vf = some (.num 0) → s'.confidenceScore = some 50) := by
  obtain ⟨c, cs, rfl⟩ : ∃ c cs, cats = c :: cs := by
    cases cats with
    | nil => exact absurd rfl hcne
    | cons c cs => exact ⟨c, cs, rfl⟩
  obtain ⟨upd, hupd, hov, htc, hcm, hcf⟩ :=
    finalizeFeedback_fields fs (cleanResponse raw) c cs vt vk vf hcats htech hcomm hconf
  refine ⟨applyFeedbackUpdate upd now s,
    feedback_mainPath_persisted st sid tr ms raw now s fs upd hs hlen hparse hupd, ?_, ?_, ?_, ?_⟩
  · intro h0
    show some upd.overallScore = some 75
    rw [hov, ensureTotal_zero _ h0]
    rfl
  · intro h0
    show some upd.technicalScore = some 50
    rw [htc, h0]
    rfl
  · intro h0
    show some upd.communicationScore = some 50
    rw [hcm, h0]
    rfl
  · intro h0
    show some upd.confidenceScore = some 50
    rw [hcf, h0]
    rfl

/-- A parsed document carrying a zero totalScore and three zero categories
(no null entries). -/
def c10raw : String :=
  "\x7b\"totalScore\": 0, \"categoryScores\": [\x7b\"name\": \"Communication Skills\", \"score\": 0, \"comment\": \"c\"\x7d, \x7b\"name\": \"Technical Knowledge\", \"score\": 0, \"comment\": \"c\"\x7d, \x7b\"name\": \"Confidence and Clarity\", \"score\": 0, \"comment\": \"c\"\x7d], \"finalAssessment\": \"f\"\x7d"

set_option maxRecDepth 100000 in
/-- C10 witness: the null-free zero-score document is persisted as
overallScore 75 and 50 in each of the three category fields. -/
theorem c10_witness :
    ∃ s', findSession (generateFeedbackFromTranscript demoStore 1 longTranscript []
          (.normal (.success c10raw)) 9).2 1 = some s'
      ∧ s'.overallScore = some 75 ∧ s'.technicalScore = some 50
      ∧ s'.communicationScore = some 50 ∧ s'.confidenceScore = some 50 := by
  obtain ⟨s', h1, h2, h3, h4, h5⟩ := c10_amended_zero_scores_defaulted demoStore 1 longTranscript []
    c10raw 9 demoSession
    [("totalScore", .num 0),
     ("categoryScores", .arr
       [catObj "Communication Skills" (.num 0) "c",
        catObj "Technical Knowledge" (.num 0) "c",
        catObj "Confidence and Clarity" (.num 0) "c"]),
     ("finalAssessment", .str "f")]
    [catObj "Communication Skills" (.num 0) "c",
     catObj "Technical Knowledge" (.num 0) "c",
     catObj "Confidence and Clarity" (.num 0) "c"]
    (some (.num 0)) (some (.num 0)) (some (.num 0))
    rfl (by decide) rfl rfl (by simp) rfl rfl rfl
  exact ⟨s', h1, h2 rfl, h3 rfl, h4 rfl, h5 rfl⟩

end NextStep
